import Mathlib

/-!
Verification development for the skupper-router HTTP/2 adaptor core
(src/adaptors/http2/http2_adaptor.c) and the streaming-message limits
(include/qpid/dispatch/message.h, src/message_private.h).

Each definition is a shallow embedding of the corresponding C function or
constant; external collaborators (the nghttp2 codec, the router core, and
qd_message_* routines implemented in message.c, which is not part of this
tree) appear as oracle parameters or, where a claim depends on their
behaviour, as definitions modelled from the specification text.
-/

namespace SkupperHttp2

/-! ## Stream status (qd_stream_status_t, http2_adaptor.c) -/

/-- The per-stream lifecycle status.  The adaptor assigns it `OPEN` when the
stream record is created (http2_adaptor.c line 484) and thereafter mutates it
only inside `advance_stream_status` (lines 195 and 201). -/
inductive StreamStatus
  | open_
  | halfClosed
  | fullyClosed
deriving DecidableEq, Repr

/-- Embedding of `advance_stream_status` (http2_adaptor.c lines 190-215):
`OPEN -> HALF_CLOSED`, `HALF_CLOSED -> FULLY_CLOSED`, `FULLY_CLOSED`
unchanged. -/
def advance_stream_status : StreamStatus → StreamStatus
  | .open_ => .halfClosed
  | .halfClosed => .fullyClosed
  | .fullyClosed => .fullyClosed

/-- Numeric rank of a status in the order `OPEN < HALF_CLOSED < FULLY_CLOSED`. -/
def StreamStatus.rank : StreamStatus → Nat
  | .open_ => 0
  | .halfClosed => 1
  | .fullyClosed => 2

/-! ## Queue-limit constants (include/qpid/dispatch/message.h lines 51-62) -/

/-- `QD_QLIMIT_Q2_LOWER` : re-enable link receive. -/
def QD_QLIMIT_Q2_LOWER : Nat := 32

/-- `QD_QLIMIT_Q2_UPPER` : disable link receive (`QD_QLIMIT_Q2_LOWER * 2`). -/
def QD_QLIMIT_Q2_UPPER : Nat := QD_QLIMIT_Q2_LOWER * 2

/-- `QD_QLIMIT_Q3_LOWER` (`QD_QLIMIT_Q2_UPPER * 2`, in qd_buffer_t units). -/
def QD_QLIMIT_Q3_LOWER : Nat := QD_QLIMIT_Q2_UPPER * 2

/-- `QD_QLIMIT_Q3_UPPER` (`QD_QLIMIT_Q3_LOWER * 2`). -/
def QD_QLIMIT_Q3_UPPER : Nat := QD_QLIMIT_Q3_LOWER * 2

/-- The Q2 hold-off state of one message content record
(`q2_input_holdoff` in qd_message_content_t, message_private.h). -/
structure Q2State where
  holdoff : Bool
deriving DecidableEq, Repr

/-- Modelled from the spec: the Q2 bang-bang controller of message.c (not
under src/).  Given the number of unconsumed buffers held by the content, a
step either sets `q2_input_holdoff` on crossing the upper threshold, or
clears it and fires the registered unblocked handler (the returned Bool)
when consumption drains the content below the lower threshold. -/
def q2_step (held : Nat) (s : Q2State) : Q2State × Bool :=
  if ¬s.holdoff ∧ QD_QLIMIT_Q2_UPPER ≤ held then (⟨true⟩, false)
  else if s.holdoff ∧ held < QD_QLIMIT_Q2_LOWER then (⟨false⟩, true)
  else (s, false)

/-! ## GOAWAY handling (on_frame_recv_callback / free_unprocessed_streams) -/

/-- The connection state touched by the GOAWAY branch of
`on_frame_recv_callback` (http2_adaptor.c lines 1208-1235): the stream table
(represented by the list of stream ids in DEQ order), the `goaway_received`
flag, and whether the raw connection is still open. -/
structure GoawayConn where
  streams : List Int
  goaway_received : Bool
  raw_conn_open : Bool
deriving DecidableEq, Repr

/-- Embedding of `free_unprocessed_streams` (http2_adaptor.c lines 157-179):
walk the stream list and free every stream whose id is strictly greater than
`last_stream_id`, keeping the rest in order. -/
def free_unprocessed_streams (last_stream_id : Int) : List Int → List Int
  | [] => []
  | sid :: rest =>
    if last_stream_id < sid then free_unprocessed_streams last_stream_id rest
    else sid :: free_unprocessed_streams last_stream_id rest

/-- Embedding of the NGHTTP2_GOAWAY branch of `on_frame_recv_callback`
(lines 1223-1234): free unprocessed streams, set `goaway_received`, close the
raw connection. -/
def on_goaway_frame (last_stream_id : Int) (c : GoawayConn) : GoawayConn :=
  { streams := free_unprocessed_streams last_stream_id c.streams
    goaway_received := true
    raw_conn_open := false }

/-! ## Delivery disposition updates (qdr_http_delivery_update) -/

/-- AMQP delivery dispositions used by the adaptor (`PN_ACCEPTED`,
`PN_RELEASED`, `PN_MODIFIED`, `PN_REJECTED`; `none_` stands for the zero
disposition). -/
inductive Disp
  | none_
  | accepted
  | released
  | modified
  | rejected
deriving DecidableEq, Repr

/-- An HTTP/2 frame synthesized by `qdr_http_delivery_update`: a HEADERS
frame carrying a `:status` value, or a DATA frame; each records whether
END_STREAM is set. -/
inductive H2Emission
  | headers (status : Nat) (endStream : Bool)
  | data (endStream : Bool)
deriving DecidableEq, Repr

/-- The per-stream fields read and written by `qdr_http_delivery_update`
(http2_adaptor.c lines 1883-2011). -/
structure DlvStream where
  status : StreamStatus
  stream_force_closed : Bool
  out_msg_send_complete : Bool
  disp_applied : Bool
deriving DecidableEq, Repr

/-- Result of `qdr_http_delivery_update`: the surviving stream record (none
when the record was freed) and the frames submitted to the HTTP/2 session. -/
structure DlvUpdateResult where
  stream : Option DlvStream
  emissions : List H2Emission
deriving DecidableEq, Repr

/-- Embedding of `qdr_http_delivery_update` (http2_adaptor.c lines
1883-2011).  `ingress` is `conn->ingress`.  On a settled terminal failure
(`RELEASED`/`MODIFIED`/`REJECTED`) an egress stream is force-closed (line
1905); an ingress stream gets synthesized `:status` 503 or 400 headers with
END_STREAM (lines 1910-1938, the auxiliary content-type/content-length
headers of the same frame are not modelled); an egress stream gets an empty
DATA frame with END_STREAM, one `advance_stream_status` step and
`out_msg_send_complete` (lines 1941-1954).  The stream record is freed when
send is complete and the status is FULLY_CLOSED (lines 1998-2006), else
`disp_applied` is set. -/
def qdr_http_delivery_update (ingress : Bool) (disp : Disp) (settled : Bool)
    (s : DlvStream) : DlvUpdateResult :=
  let terminalFail : Bool := disp = .released ∨ disp = .modified ∨ disp = .rejected
  let s := if settled ∧ ¬ingress ∧ terminalFail then { s with stream_force_closed := true } else s
  if settled then
    let emissions :=
      if ingress ∧ (disp = .released ∨ disp = .modified) then [H2Emission.headers 503 true]
      else if ingress ∧ disp = .rejected then [H2Emission.headers 400 true]
      else if ¬ingress ∧ terminalFail then [H2Emission.data true]
      else []
    let s :=
      if ¬ingress ∧ terminalFail then
        { s with status := advance_stream_status s.status, out_msg_send_complete := true }
      else s
    if s.out_msg_send_complete ∧ s.status = .fullyClosed then
      { stream := none, emissions := emissions }
    else
      { stream := some { s with disp_applied := true }, emissions := emissions }
  else
    { stream := some s, emissions := [] }

/-! ## Incoming DATA chunks (on_data_chunk_recv_callback) -/

/-- The connection fields read and written by `on_data_chunk_recv_callback`. -/
structure DataConn where
  raw_conn : Bool
  q2_blocked : Bool
  bytes_in : Nat
deriving DecidableEq, Repr

/-- The per-stream fields read and written by `on_data_chunk_recv_callback`:
whether the incoming delivery exists (`in_dlv`), whether the
header-and-properties prefix has been composed, the staged body-buffer
list (as a byte list), and the body-data-added marker. -/
structure DataStream where
  stream_force_closed : Bool
  in_dlv : Bool
  header_and_props_composed : Bool
  body_data_added_to_msg : Bool
  body_buffers : List Nat
  bytes_in : Nat
deriving DecidableEq, Repr

/-- Result of one DATA chunk: the updated connection, the updated stream
record, and the message body (the bytes appended so far via
`qd_message_stream_data_append`). -/
structure DataChunkResult where
  conn : DataConn
  stream : Option DataStream
  message_body : List Nat
deriving DecidableEq, Repr

/-- Embedding of `on_data_chunk_recv_callback` (http2_adaptor.c lines
574-657).  `q2sig1`/`q2sig2` are the Q2-blocked signals returned by the two
`qd_message_stream_data_append` calls (message.c is external, so they are
oracle inputs).  Guards: a missing raw connection or stream record, or a
force-closed stream, drop the chunk.  Otherwise, when `in_dlv` is present or
the header-and-properties prefix is composed, any staged buffers not yet
added are flushed into the message, the chunk is appended, and a returned
blocking signal raises `conn->q2_blocked`; else the chunk is staged in
`body_buffers`. -/
def on_data_chunk_recv (conn : DataConn) (stream : Option DataStream)
    (msg : List Nat) (data : List Nat) (q2sig1 q2sig2 : Bool) : DataChunkResult :=
  if ¬conn.raw_conn then ⟨conn, stream, msg⟩
  else
    match stream with
    | none => ⟨conn, none, msg⟩
    | some sd =>
      if sd.stream_force_closed then ⟨conn, some sd, msg⟩
      else
        let sd := { sd with bytes_in := sd.bytes_in + data.length }
        let conn := { conn with bytes_in := conn.bytes_in + data.length }
        if sd.in_dlv ∨ sd.header_and_props_composed then
          let flush := sd.body_buffers ≠ [] ∧ ¬sd.body_data_added_to_msg
          let msg := if flush then msg ++ sd.body_buffers else msg
          let q2_blocked1 := if flush then q2sig1 else false
          let sd := if flush then { sd with body_buffers := [] } else sd
          let msg := msg ++ data
          let sd := { sd with body_data_added_to_msg := true }
          let conn :=
            if (q2_blocked1 ∨ q2sig2) ∧ ¬conn.q2_blocked then
              { conn with q2_blocked := true }
            else conn
          ⟨conn, some sd, msg⟩
        else
          ⟨conn, some { sd with body_buffers := sd.body_buffers ++ data }, msg⟩

/-! ## Delivery routing (route_delivery / compose_and_deliver) -/

/-- The per-stream fields consulted by `route_delivery` and
`compose_and_deliver`; `reply_to` records whether the reply-to address has
been assigned. -/
structure RouteStream where
  in_dlv : Bool
  in_link_credit : Nat
  reply_to : Bool
  entire_header_arrived : Bool
  header_and_props_composed : Bool
  footer_properties : Bool
  entire_footer_arrived : Bool
deriving DecidableEq, Repr

/-- Embedding of `compose_and_deliver` (http2_adaptor.c lines 967-1105).
When the header-and-properties prefix is not yet composed, both
receive-incomplete sub-branches return false without routing if a footer
builder exists whose map has not fully arrived (lines 1028-1031 and
1053-1057); otherwise the prefix is composed.  A delivery is then created
via `qdr_link_deliver` exactly when no `in_dlv` exists and the incoming link
credit is positive, decrementing the credit by one (lines 1092-1103). -/
def compose_and_deliver (receive_complete : Bool) (sd : RouteStream) :
    Bool × RouteStream :=
  let composed :=
    if sd.header_and_props_composed then some sd
    else if ¬receive_complete ∧ sd.footer_properties ∧ ¬sd.entire_footer_arrived then none
    else some { sd with header_and_props_composed := true }
  match composed with
  | none => (false, sd)
  | some sd =>
    if ¬sd.in_dlv ∧ 0 < sd.in_link_credit then
      (true, { sd with in_dlv := true, in_link_credit := sd.in_link_credit - 1 })
    else (false, sd)

/-- Embedding of `route_delivery` (http2_adaptor.c lines 1107-1140): returns
false immediately when `in_dlv` is already present; on an ingress connection
routing requires the reply-to address and the complete header; on egress it
requires only the complete header. -/
def route_delivery (ingress receive_complete : Bool) (sd : RouteStream) :
    Bool × RouteStream :=
  if sd.in_dlv then (false, sd)
  else if ingress then
    if sd.reply_to ∧ sd.entire_header_arrived then compose_and_deliver receive_complete sd
    else (false, sd)
  else
    if sd.entire_header_arrived then compose_and_deliver receive_complete sd
    else (false, sd)

/-! ## Egress DATA read callback (read_data_callback) -/

/-- Result of `qd_message_check_depth` (`QD_MESSAGE_DEPTH_OK`,
`QD_MESSAGE_DEPTH_INCOMPLETE`, `QD_MESSAGE_DEPTH_INVALID`). -/
inductive DepthStatus
  | ok
  | incomplete
  | invalid
deriving DecidableEq, Repr

/-- Result of `qd_message_next_stream_data`
(`QD_MESSAGE_STREAM_DATA_BODY_OK` and friends). -/
inductive SDResult
  | bodyOk
  | footerOk
  | incomplete
  | noMore
  | invalid
  | aborted
deriving DecidableEq, Repr

/-- A stream-data window (`qd_message_stream_data_t`), abstracted to the
payload length reported by `qd_message_stream_data_payload_length`. -/
structure Window where
  payload_length : Nat
deriving DecidableEq, Repr

/-- `qd_message_next_stream_data` is implemented in message.c (external to
this tree), so the successive values it returns are supplied as an oracle
list; popping past the end yields `NO_MORE` with no window. -/
def qd_message_next_stream_data (oracle : List (SDResult × Option Window)) :
    SDResult × Option Window × List (SDResult × Option Window) :=
  match oracle with
  | [] => (.noMore, none, [])
  | (r, w) :: rest => (r, w, rest)

/-- Modelled from the spec: `QD_ADAPTOR_MAX_BUFFER_SIZE` is defined in
adaptors/adaptor_common.h, which is not under src/; the spec fixes the
per-callback copy limit at 16 KiB (and the HTTP/2 max frame at 16384). -/
def QD_ADAPTOR_MAX_BUFFER_SIZE : Nat := 16384

/-- The per-stream fields read and written by `read_data_callback`
(`qdr_http2_stream_data_t`). -/
structure RdState where
  curr_stream_data : Option Window
  curr_stream_data_result : SDResult
  next_stream_data : Option Window
  next_stream_data_result : SDResult
  payload_handled : Nat
  out_msg_has_footer : Bool
  out_msg_data_flag_eof : Bool
  out_msg_body_sent : Bool
  full_payload_handled : Bool
  bytes_out : Nat
  out_dlv_local_disposition : Disp
deriving DecidableEq, Repr

/-- The nghttp2 data flags set by the callback: `NGHTTP2_DATA_FLAG_EOF` and
`NGHTTP2_DATA_FLAG_NO_END_STREAM` (`NGHTTP2_DATA_FLAG_NO_COPY` is always
set and not modelled). -/
structure RdFlags where
  eof : Bool
  noEndStream : Bool
deriving DecidableEq, Repr

/-- Return value of the callback: `NGHTTP2_ERR_DEFERRED` or a byte count. -/
inductive RdRet
  | deferred
  | bytes (n : Nat)
deriving DecidableEq, Repr

/-- Full outcome of one `read_data_callback` invocation. -/
structure RdResult where
  ret : RdRet
  flags : RdFlags
  state : RdState
  oracle : List (SDResult × Option Window)
deriving DecidableEq, Repr

/-- Embedding of `read_data_callback` (http2_adaptor.c lines 1441-1774).
`capacity` is `pn_raw_connection_write_buffers_capacity`.  The iterator
bookkeeping (`curr_stream_data_iter`) and the release of windows are not
modelled beyond clearing the window references. -/
def read_data_callback (depth : DepthStatus) (length capacity : Nat)
    (s : RdState) (oracle : List (SDResult × Option Window)) : RdResult :=
  match depth with
  | .incomplete =>
    { ret := .deferred, flags := ⟨false, false⟩
      state := { s with out_dlv_local_disposition := .none_ }, oracle := oracle }
  | .invalid =>
    { ret := .bytes 0, flags := ⟨false, false⟩
      state := { s with out_dlv_local_disposition := .rejected }, oracle := oracle }
  | .ok =>
    let s : RdState :=
      match s.next_stream_data with
      | some w =>
        { s with
            curr_stream_data := some w
            curr_stream_data_result := s.next_stream_data_result
            next_stream_data := none }
      | none => s
    let step2 : RdState × List (SDResult × Option Window) :=
      if s.curr_stream_data = none then
        let r := qd_message_next_stream_data oracle
        ({ s with curr_stream_data_result := r.1, curr_stream_data := r.2.1 }, r.2.2)
      else (s, oracle)
    let s := step2.1
    let oracle := step2.2
    let s : RdState :=
      if s.next_stream_data = none ∧
          (s.next_stream_data_result = .noMore ∨ s.next_stream_data_result = .aborted ∨
            s.next_stream_data_result = .invalid) then
        { s with curr_stream_data_result := s.next_stream_data_result }
      else s
    match s.curr_stream_data_result with
    | .bodyOk =>
      if capacity = 0 then
        { ret := .deferred, flags := ⟨false, false⟩
          state := { s with out_dlv_local_disposition := .none_ }, oracle := oracle }
      else
        let payload_length := (s.curr_stream_data.map Window.payload_length).getD 0
        if payload_length = 0 then
          let r := qd_message_next_stream_data oracle
          let oracle := r.2.2
          let s : RdState := { s with next_stream_data_result := r.1, next_stream_data := r.2.1 }
          if s.next_stream_data_result = SDResult.noMore then
            let s : RdState :=
              if ¬s.out_msg_has_footer then { s with curr_stream_data := none } else s
            { ret := .bytes 0, flags := ⟨true, false⟩
              state := { s with
                out_msg_data_flag_eof := true
                out_msg_body_sent := true
                full_payload_handled := true
                next_stream_data := none
                out_dlv_local_disposition := .accepted }
              oracle := oracle }
          else if s.next_stream_data_result = SDResult.footerOk then
            { ret := .bytes 0, flags := ⟨false, false⟩
              state := { s with full_payload_handled := true }, oracle := oracle }
          else
            { ret := .bytes 0, flags := ⟨false, false⟩
              state := { s with curr_stream_data := none }, oracle := oracle }
        else
          let remaining := payload_length - s.payload_handled
          if remaining ≤ QD_ADAPTOR_MAX_BUFFER_SIZE then
            if length < remaining then
              { ret := .bytes length, flags := ⟨false, false⟩
                state := { s with
                  full_payload_handled := false
                  bytes_out := s.bytes_out + length }
                oracle := oracle }
            else
              let r := qd_message_next_stream_data oracle
              let oracle := r.2.2
              let s : RdState := { s with
                full_payload_handled := true
                next_stream_data_result := r.1
                next_stream_data := r.2.1 }
              if s.next_stream_data_result = SDResult.noMore then
                { ret := .bytes remaining, flags := ⟨true, false⟩
                  state := { s with
                    out_msg_data_flag_eof := true
                    out_msg_body_sent := true
                    out_dlv_local_disposition := .accepted
                    bytes_out := s.bytes_out + remaining }
                  oracle := oracle }
              else if s.next_stream_data_result = SDResult.footerOk then
                { ret := .bytes remaining, flags := ⟨false, false⟩
                  state := { s with
                    out_msg_has_footer := true
                    out_msg_body_sent := true
                    bytes_out := s.bytes_out + remaining }
                  oracle := oracle }
              else
                { ret := .bytes remaining, flags := ⟨false, false⟩
                  state := { s with bytes_out := s.bytes_out + remaining }
                  oracle := oracle }
          else
            let bts :=
              if length < QD_ADAPTOR_MAX_BUFFER_SIZE then length
              else QD_ADAPTOR_MAX_BUFFER_SIZE
            { ret := .bytes bts, flags := ⟨false, false⟩
              state := { s with
                full_payload_handled := false
                bytes_out := s.bytes_out + bts }
              oracle := oracle }
    | .footerOk =>
      let step : RdState × List (SDResult × Option Window) :=
        if ¬s.out_msg_has_footer then
          let r := qd_message_next_stream_data oracle
          ({ s with
              out_msg_has_footer := true
              next_stream_data_result := r.1
              next_stream_data := r.2.1 }, r.2.2)
        else (s, oracle)
      let s := step.1
      let oracle := step.2
      let s : RdState :=
        if s.next_stream_data_result = SDResult.invalid ∨ s.next_stream_data_result = SDResult.aborted then
          { s with out_msg_has_footer := false, next_stream_data := none }
        else s
      { ret := .bytes 0, flags := ⟨false, false⟩, state := s, oracle := oracle }
    | .incomplete =>
      { ret := .deferred, flags := ⟨false, false⟩
        state := { s with out_dlv_local_disposition := .none_ }, oracle := oracle }
    | .noMore =>
      if capacity = 0 then
        { ret := .deferred, flags := ⟨false, false⟩
          state := { s with out_dlv_local_disposition := .none_ }, oracle := oracle }
      else
        { ret := .bytes 0, flags := ⟨true, s.out_msg_has_footer⟩
          state := { s with
            out_msg_data_flag_eof := true
            full_payload_handled := true
            out_msg_body_sent := true
            out_dlv_local_disposition := .accepted }
          oracle := oracle }
    | .invalid =>
      { ret := .bytes 0, flags := ⟨true, false⟩
        state := { s with
          curr_stream_data := none
          out_msg_data_flag_eof := true
          out_dlv_local_disposition := .rejected }
        oracle := oracle }
    | .aborted =>
      { ret := .bytes 0, flags := ⟨true, false⟩
        state := { s with
          curr_stream_data := none
          out_msg_data_flag_eof := true
          out_dlv_local_disposition := .rejected }
        oracle := oracle }

/-! ## Reconnect timer activation (schedule_activation / cancel_activation) -/

/-- The connection fields used by the activation timer logic: the
`activate_scheduled` atomic flag and the armed timer (some duration when
armed). -/
structure ActState where
  activate_scheduled : Bool
  timer : Option Nat
deriving DecidableEq, Repr

/-- A primitive call made by the activation functions, in program order. -/
inductive ActPrim
  | setFlag
  | timerSchedule (msec : Nat)
  | timerCancel
  | clearFlag
deriving DecidableEq, Repr

/-- Embedding of `schedule_activation` (http2_adaptor.c lines 3467-3474):
`SET_ATOMIC_FLAG` is always attempted; the timer is armed (and true
returned) only when the flag transitioned from clear to set. -/
def schedule_activation (msec : Nat) (s : ActState) : Bool × ActState × List ActPrim :=
  if s.activate_scheduled then (false, s, [ActPrim.setFlag])
  else (true, ⟨true, some msec⟩, [ActPrim.setFlag, ActPrim.timerSchedule msec])

/-- Embedding of `cancel_activation` (http2_adaptor.c lines 3476-3482): the
timer is cancelled first and the flag cleared afterwards. -/
def cancel_activation (s : ActState) : ActState × List ActPrim :=
  (⟨false, none⟩, [ActPrim.timerCancel, ActPrim.clearFlag])

/-- Embedding of the PN_RAW_CONNECTION_DISCONNECTED branch of
`handle_connection_event` restricted to its timer logic (http2_adaptor.c
lines 3238-3252): on an egress connection, cancel the pending timer when the
connector is being deleted, else schedule a 2000 ms reconnect; an ingress
connection does neither. -/
def on_disconnected_timer_logic (ingress delete_egress_connections : Bool)
    (s : ActState) : ActState × List ActPrim :=
  if ingress then (s, [])
  else if delete_egress_connections then cancel_activation s
  else
    let r := schedule_activation 2000 s
    (r.2.1, r.2.2)

/-! ## Cut-through ring (UCT, message.h / message_private.h) -/

/-- `UCT_SLOT_COUNT` (include/qpid/dispatch/message.h line 656). -/
def UCT_SLOT_COUNT : Nat := 8

/-- `UCT_RESUME_THRESHOLD` (include/qpid/dispatch/message.h line 657). -/
def UCT_RESUME_THRESHOLD : Nat := 4

/-- The observable cut-through ring state: the number of filled slots of
the `uct_slots` array and the producer-stall marker. -/
structure UctState where
  filled : Nat
  stalled : Bool
deriving DecidableEq, Repr

/-- Modelled from the spec: `qd_message_can_produce_buffers` (message.c is
not under src/) — capacity exists while fewer than `UCT_SLOT_COUNT` slots
are filled. -/
def uct_can_produce (s : UctState) : Bool := s.filled < UCT_SLOT_COUNT

/-- Modelled from the spec: `qd_message_can_consume_buffers` — content
exists while at least one slot is filled. -/
def uct_can_consume (s : UctState) : Bool := 0 < s.filled

/-- A producer or consumer step on the ring. -/
inductive UctOp
  | produce
  | consume
deriving DecidableEq, Repr

/-- Modelled from the spec: `qd_message_produce_buffers` fills one slot and
must only be called when `can_produce`; a producer that instead observes
`!can_produce` declares a stall.  `qd_message_consume_buffers` drains a
slot when one is filled. -/
def uct_apply (op : UctOp) (s : UctState) : UctState :=
  match op with
  | .produce =>
    if uct_can_produce s then { s with filled := s.filled + 1 }
    else { s with stalled := true }
  | .consume =>
    if uct_can_consume s then { s with filled := s.filled - 1 }
    else s

/-- Modelled from the spec: `qd_message_resume_from_stalled` returns true,
clearing the stalled state as a side effect, exactly when the stream was
stalled and the payload has shrunk to at most `UCT_RESUME_THRESHOLD`
slots. -/
def uct_resume_from_stalled (s : UctState) : Bool × UctState :=
  if s.stalled ∧ s.filled ≤ UCT_RESUME_THRESHOLD then (true, { s with stalled := false })
  else (false, s)

/-- The initial ring state of a fresh cut-through message. -/
def uct_initial : UctState := ⟨0, false⟩

/-- A router-core call made by the NGHTTP2_RST_STREAM branch. -/
inductive CoreAction
  | remoteStateUpdated (disp : Disp) (settled : Bool)
deriving DecidableEq, Repr

/-- Embedding of the NGHTTP2_RST_STREAM branch of `on_frame_recv_callback`
(http2_adaptor.c lines 1241-1274): when the stream has an outgoing delivery
it is rejected (settled), and the stream record is freed unconditionally
(`free_http2_stream_data`); no status field or force-closed flag is written
on the record. -/
def on_rst_stream_frame (has_out_dlv : Bool) (s : DlvStream) :
    List CoreAction × Option DlvStream :=
  ((if has_out_dlv then [CoreAction.remoteStateUpdated .rejected true] else []), none)

end SkupperHttp2

namespace SkupperHttp2

/-- Claim C7: `advance_stream_status` maps `OPEN` to `HALF_CLOSED` and
`HALF_CLOSED` to `FULLY_CLOSED`, leaves `FULLY_CLOSED` unchanged, and the
stream status is monotone in the order `OPEN < HALF_CLOSED < FULLY_CLOSED`:
the source assigns the status field only at stream creation (to `OPEN`) and
inside `advance_stream_status`, so any run of adaptor operations applies a
sequence of `advance_stream_status` calls and the rank never decreases. -/
theorem advance_stream_status_monotonic :
    advance_stream_status .open_ = .halfClosed ∧
    advance_stream_status .halfClosed = .fullyClosed ∧
    advance_stream_status .fullyClosed = .fullyClosed ∧
    (∀ s : StreamStatus, s.rank ≤ (advance_stream_status s).rank) ∧
    (∀ (n : Nat) (s : StreamStatus), s.rank ≤ (advance_stream_status^[n] s).rank) := by
  refine ⟨rfl, rfl, rfl, ?_, ?_⟩
  · intro s; cases s <;> simp [advance_stream_status, StreamStatus.rank]
  · intro n
    induction n with
    | zero => intro s; simp
    | succ k ih =>
      intro s
      rw [Function.iterate_succ_apply]
      exact le_trans (by cases s <;> simp [advance_stream_status, StreamStatus.rank]) (ih _)

/-- Claim C2: the Q2 thresholds are exactly 64 (upper) and 32 (lower) buffers
and the Q3 thresholds exactly 256 (upper) and 128 (lower) buffers; in the
spec-modelled Q2 controller the hold-off is set exactly when 64 or more
unconsumed buffers are held, it is cleared with the unblocked handler fired
exactly when a blocked content drains below 32 buffers, and the handler
fires at most once per blocked-to-unblocked transition (a second step right
after an unblock never fires it again). -/
theorem q2_q3_thresholds :
    QD_QLIMIT_Q2_UPPER = 64 ∧ QD_QLIMIT_Q2_LOWER = 32 ∧
    QD_QLIMIT_Q3_UPPER = 256 ∧ QD_QLIMIT_Q3_LOWER = 128 ∧
    (∀ (held : Nat) (s : Q2State),
      (q2_step held s).2 = true ↔ (s.holdoff = true ∧ held < QD_QLIMIT_Q2_LOWER)) ∧
    (∀ (held : Nat) (s : Q2State),
      (q2_step held s).1.holdoff = true ↔
        ((s.holdoff = false ∧ QD_QLIMIT_Q2_UPPER ≤ held) ∨
         (s.holdoff = true ∧ QD_QLIMIT_Q2_LOWER ≤ held))) ∧
    (∀ (held held2 : Nat) (s : Q2State),
      (q2_step held s).2 = true → (q2_step held2 (q2_step held s).1).2 = false) := by
  refine ⟨rfl, rfl, rfl, rfl, ?_, ?_, ?_⟩
  · intro held s
    obtain ⟨h⟩ := s
    cases h <;> simp [q2_step] <;> split_ifs <;> simp_all <;> omega
  · intro held s
    obtain ⟨h⟩ := s
    cases h <;> simp [q2_step] <;> split_ifs <;> simp_all <;> omega
  · intro held held2 s hfire
    obtain ⟨h⟩ := s
    cases h <;> simp [q2_step] at hfire ⊢ <;> split_ifs at hfire ⊢ <;> simp_all <;> omega

/-- Witness for q2_q3_thresholds at a concrete state: a blocked content
holding 10 buffers fires the handler, and the immediately following step does
not fire it again. -/
theorem q2_q3_thresholds_witness :
    (q2_step 10 ⟨true⟩).2 = true ∧ (q2_step 10 (q2_step 10 ⟨true⟩).1).2 = false := by
  constructor
  · exact (q2_q3_thresholds.2.2.2.2.1 10 ⟨true⟩).mpr (by decide)
  · exact q2_q3_thresholds.2.2.2.2.2.2 10 10 ⟨true⟩ (by decide)

/-- Membership in the survivor list of `free_unprocessed_streams`: a stream
id survives iff it was present and is at most the last-stream-id. -/
theorem mem_free_unprocessed_streams (last_stream_id : Int) (ids : List Int) (sid : Int) :
    sid ∈ free_unprocessed_streams last_stream_id ids ↔
      sid ∈ ids ∧ sid ≤ last_stream_id := by
  induction ids with
  | nil => simp [free_unprocessed_streams]
  | cons hd tl ih =>
    by_cases h : last_stream_id < hd
    · simp only [free_unprocessed_streams, if_pos h, ih, List.mem_cons]
      constructor
      · rintro ⟨h1, h2⟩; exact ⟨Or.inr h1, h2⟩
      · rintro ⟨h1 | h1, h2⟩
        · omega
        · exact ⟨h1, h2⟩
    · simp only [free_unprocessed_streams, if_neg h, List.mem_cons, ih]
      constructor
      · rintro (rfl | ⟨h1, h2⟩)
        · exact ⟨Or.inl rfl, by omega⟩
        · exact ⟨Or.inr h1, h2⟩
      · rintro ⟨rfl | h1, h2⟩
        · exact Or.inl rfl
        · exact Or.inr ⟨h1, h2⟩

/-- Claim C5: on receipt of a GOAWAY frame with last-stream-id `L`, exactly
the streams with id strictly greater than `L` are freed (a stream survives
the handler iff its id is at most `L`), the `goaway_received` flag is set,
and the raw connection is closed. -/
theorem on_goaway_frame_spec (L : Int) (c : GoawayConn) :
    (∀ sid : Int,
      sid ∈ (on_goaway_frame L c).streams ↔ sid ∈ c.streams ∧ sid ≤ L) ∧
    (on_goaway_frame L c).goaway_received = true ∧
    (on_goaway_frame L c).raw_conn_open = false := by
  refine ⟨?_, rfl, rfl⟩
  intro sid
  exact mem_free_unprocessed_streams L c.streams sid

/-- Claim C3: for a settled delivery update, `RELEASED`/`MODIFIED` on an
ingress stream synthesizes `:status 503` headers with END_STREAM, `REJECTED`
on ingress synthesizes `:status 400` with END_STREAM, any of the three on an
egress stream submits an empty DATA frame with END_STREAM, and `ACCEPTED`
triggers no synthesized frame on either side. -/
theorem qdr_http_delivery_update_emissions (disp : Disp) (s : DlvStream) :
    ((disp = .released ∨ disp = .modified) →
      (qdr_http_delivery_update true disp true s).emissions = [H2Emission.headers 503 true]) ∧
    (disp = .rejected →
      (qdr_http_delivery_update true disp true s).emissions = [H2Emission.headers 400 true]) ∧
    ((disp = .released ∨ disp = .modified ∨ disp = .rejected) →
      (qdr_http_delivery_update false disp true s).emissions = [H2Emission.data true]) ∧
    (disp = .accepted →
      ∀ ingress : Bool, (qdr_http_delivery_update ingress disp true s).emissions = []) := by
  refine ⟨?_, ?_, ?_, ?_⟩
  · rintro (rfl | rfl) <;> cases s <;>
      simp [qdr_http_delivery_update] <;> split_ifs <;> simp_all
  · rintro rfl; cases s <;>
      simp [qdr_http_delivery_update] <;> split_ifs <;> simp_all
  · rintro (rfl | rfl | rfl) <;> cases s <;>
      simp [qdr_http_delivery_update] <;> split_ifs <;> simp_all
  · rintro rfl ingress; cases ingress <;> cases s <;>
      simp [qdr_http_delivery_update] <;> split_ifs <;> simp_all

/-- Witness for qdr_http_delivery_update_emissions at concrete dispositions
and a concrete stream state. -/
theorem qdr_http_delivery_update_emissions_witness :
    (qdr_http_delivery_update true .released true ⟨.open_, false, false, false⟩).emissions
        = [H2Emission.headers 503 true] ∧
    (qdr_http_delivery_update true .rejected true ⟨.open_, false, false, false⟩).emissions
        = [H2Emission.headers 400 true] ∧
    (qdr_http_delivery_update false .released true ⟨.open_, false, false, false⟩).emissions
        = [H2Emission.data true] ∧
    (qdr_http_delivery_update true .accepted true ⟨.open_, false, false, false⟩).emissions
        = [] := by
  refine ⟨?_, ?_, ?_, ?_⟩
  · exact (qdr_http_delivery_update_emissions .released ⟨.open_, false, false, false⟩).1
      (Or.inl rfl)
  · exact (qdr_http_delivery_update_emissions .rejected ⟨.open_, false, false, false⟩).2.1 rfl
  · exact (qdr_http_delivery_update_emissions .released ⟨.open_, false, false, false⟩).2.2.1
      (Or.inl rfl)
  · exact (qdr_http_delivery_update_emissions .accepted ⟨.open_, false, false, false⟩).2.2.2
      rfl true

/-- Counterexample to claim C6: a released settle on the egress side of a
stream that is still OPEN leaves the stream at HALF_CLOSED (one
`advance_stream_status` step), not FULLY_CLOSED as the claim states. -/
theorem released_settle_not_fully_closed_counterexample :
    (qdr_http_delivery_update false .released true ⟨.open_, false, false, false⟩).stream
        = some ⟨.halfClosed, true, true, true⟩ ∧
    StreamStatus.halfClosed ≠ StreamStatus.fullyClosed := by
  exact ⟨by decide, by decide⟩

/-- Claim C6 as amended: a released/modified/rejected settle on an egress
stream sets `stream_force_closed` and advances the stream status by exactly
one step (so it reaches FULLY_CLOSED only when the stream was already
HALF_CLOSED), while an RST_STREAM frame frees the stream record outright
(rejecting any outgoing delivery) rather than flagging it; once
`stream_force_closed` is set, late DATA chunks on that stream are dropped
without touching the message or the staged buffers. -/
theorem forced_closure_amended (disp : Disp) (s : DlvStream) (b : Bool) :
    ((disp = .released ∨ disp = .modified ∨ disp = .rejected) →
      qdr_http_delivery_update false disp true s =
        (if advance_stream_status s.status = .fullyClosed then
          { stream := none, emissions := [H2Emission.data true] }
        else
          { stream := some ⟨advance_stream_status s.status, true, true, true⟩,
            emissions := [H2Emission.data true] })) ∧
    (on_rst_stream_frame b s).2 = none ∧
    (b = true →
      (on_rst_stream_frame b s).1 = [CoreAction.remoteStateUpdated .rejected true]) ∧
    (∀ (dc : DataConn) (ds : DataStream) (msg data : List Nat) (q1 q2 : Bool),
      ds.stream_force_closed = true →
      on_data_chunk_recv dc (some ds) msg data q1 q2 = ⟨dc, some ds, msg⟩) := by
  refine ⟨?_, rfl, ?_, ?_⟩
  · rintro (rfl | rfl | rfl) <;> obtain ⟨st, f, sc, da⟩ := s <;>
      cases st <;> cases f <;> cases sc <;> cases da <;> decide
  · rintro rfl; rfl
  · intro dc ds msg data q1 q2 hf
    obtain ⟨r, q, cb⟩ := dc
    cases r <;> simp [on_data_chunk_recv, hf]

/-- Witness for forced_closure_amended: a released settle on an egress
stream that is HALF_CLOSED frees the record (status reached FULLY_CLOSED),
and an RST_STREAM with an outgoing delivery rejects it. -/
theorem forced_closure_amended_witness :
    qdr_http_delivery_update false .released true ⟨.halfClosed, false, false, false⟩ =
      (if advance_stream_status StreamStatus.halfClosed = .fullyClosed then
        { stream := none, emissions := [H2Emission.data true] }
      else
        { stream := some ⟨advance_stream_status StreamStatus.halfClosed, true, true, true⟩,
          emissions := [H2Emission.data true] }) ∧
    (on_rst_stream_frame true ⟨.open_, false, false, false⟩).1
        = [CoreAction.remoteStateUpdated .rejected true] := by
  constructor
  · exact (forced_closure_amended .released ⟨.halfClosed, false, false, false⟩ true).1
      (Or.inl rfl)
  · exact (forced_closure_amended .released ⟨.open_, false, false, false⟩ true).2.2.1 rfl

/-- Counterexample to claim C4: a DATA chunk arriving on a stream whose
delivery has not been routed (`in_dlv` absent) but whose
header-and-properties prefix is already composed is appended directly to the
message body, not staged in the stream record's body-buffer list as the
claim states. -/
theorem data_chunk_unrouted_append_counterexample :
    (on_data_chunk_recv ⟨true, false, 0⟩ (some ⟨false, false, true, false, [], 0⟩)
        [] [1, 2, 3] false false)
      = ⟨⟨true, false, 3⟩, some ⟨false, false, true, true, [], 3⟩, [1, 2, 3]⟩ ∧
    ([1, 2, 3] : List Nat) ≠ [] := by
  exact ⟨by decide, by decide⟩

/-- Claim C4 as amended: provided the raw connection is present and the
stream record exists and is not force-closed, a DATA chunk is appended to
the message body whenever the delivery has been routed or the
header-and-properties prefix has been composed (flushing any staged
not-yet-added buffers first, and raising the connection's `q2_blocked` flag
from the Q2 signals returned by the appends); otherwise the chunk is staged
in the stream record's body-buffer list. -/
theorem on_data_chunk_recv_amended (conn : DataConn) (sd : DataStream)
    (msg data : List Nat) (q2sig1 q2sig2 : Bool)
    (hraw : conn.raw_conn = true) (hforce : sd.stream_force_closed = false) :
    ((sd.in_dlv = true ∨ sd.header_and_props_composed = true) →
      (sd.body_buffers = [] →
        on_data_chunk_recv conn (some sd) msg data q2sig1 q2sig2 =
          ⟨{ conn with
              bytes_in := conn.bytes_in + data.length
              q2_blocked := conn.q2_blocked || q2sig2 },
           some { sd with
              bytes_in := sd.bytes_in + data.length
              body_data_added_to_msg := true },
           msg ++ data⟩) ∧
      (sd.body_buffers ≠ [] → sd.body_data_added_to_msg = false →
        on_data_chunk_recv conn (some sd) msg data q2sig1 q2sig2 =
          ⟨{ conn with
              bytes_in := conn.bytes_in + data.length
              q2_blocked := conn.q2_blocked || q2sig1 || q2sig2 },
           some { sd with
              bytes_in := sd.bytes_in + data.length
              body_buffers := []
              body_data_added_to_msg := true },
           msg ++ sd.body_buffers ++ data⟩)) ∧
    (sd.in_dlv = false → sd.header_and_props_composed = false →
      on_data_chunk_recv conn (some sd) msg data q2sig1 q2sig2 =
        ⟨{ conn with bytes_in := conn.bytes_in + data.length },
         some { sd with
            bytes_in := sd.bytes_in + data.length
            body_buffers := sd.body_buffers ++ data },
         msg⟩) := by
  obtain ⟨cr, cq, cb⟩ := conn
  obtain ⟨f, dlv, hp, added, bufs, sbytes⟩ := sd
  simp only at hraw hforce
  subst hraw hforce
  refine ⟨fun hroute => ⟨?_, ?_⟩, ?_⟩
  · intro hbufs
    subst hbufs
    cases dlv <;> cases hp <;> cases cq <;> cases q2sig2 <;> cases added <;>
      simp_all [on_data_chunk_recv]
  · intro hbufs hadded
    subst hadded
    cases dlv <;> cases hp <;> cases cq <;> cases q2sig1 <;> cases q2sig2 <;>
      simp_all [on_data_chunk_recv, List.append_assoc]
  · rintro rfl rfl
    simp [on_data_chunk_recv]

/-- Witness for on_data_chunk_recv_amended: concrete chunks through the
append path with staged buffers and through the staging path. -/
theorem on_data_chunk_recv_amended_witness :
    (on_data_chunk_recv ⟨true, false, 0⟩ (some ⟨false, true, false, false, [7], 0⟩)
        [9] [1, 2] true false =
      ⟨⟨true, true, 2⟩, some ⟨false, true, false, true, [], 2⟩, [9, 7, 1, 2]⟩) ∧
    (on_data_chunk_recv ⟨true, false, 0⟩ (some ⟨false, false, false, false, [7], 0⟩)
        [9] [1, 2] false false =
      ⟨⟨true, false, 2⟩, some ⟨false, false, false, false, [7, 1, 2], 2⟩, [9]⟩) := by
  constructor
  · have h := (on_data_chunk_recv_amended ⟨true, false, 0⟩ ⟨false, true, false, false, [7], 0⟩
      [9] [1, 2] true false rfl rfl).1 (Or.inl rfl)
    have h2 := h.2 (by decide) rfl
    simpa using h2
  · have h := (on_data_chunk_recv_amended ⟨true, false, 0⟩ ⟨false, false, false, false, [7], 0⟩
      [9] [1, 2] false false rfl rfl).2 rfl rfl
    simpa using h

/-- Counterexample to claim C1: in `read_data_callback`, emptying the
current BODY_OK window (10 bytes remaining, 20 requested, capacity 5) with a
FOOTER_OK lookahead does NOT set the EOF flag on that invocation — it only
records `out_msg_has_footer`; the claim states that a FOOTER_OK lookahead
sets EOF without END_STREAM. -/
theorem read_data_footer_lookahead_counterexample :
    read_data_callback .ok 20 5
        ⟨some ⟨10⟩, .bodyOk, none, .bodyOk, 0, false, false, false, false, 0, .none_⟩
        [(.footerOk, some ⟨3⟩)] =
      ⟨.bytes 10, ⟨false, false⟩,
       ⟨some ⟨10⟩, .bodyOk, some ⟨3⟩, .footerOk, 0, true, false, true, true, 10, .none_⟩,
       []⟩ ∧
    (read_data_callback .ok 20 5
        ⟨some ⟨10⟩, .bodyOk, none, .bodyOk, 0, false, false, false, false, 0, .none_⟩
        [(.footerOk, some ⟨3⟩)]).flags.eof = false := by
  exact ⟨by decide, by decide⟩

/-- Claim C1 as amended: a `QD_DEPTH_BODY` check returning INCOMPLETE makes
the callback return deferred; with a current BODY_OK window, zero raw-
connection write capacity returns deferred, and otherwise the callback
returns exactly `min(requested, remaining-in-window, 16384)` bytes; when the
window is thereby emptied it looks ahead one window — a NO_MORE lookahead
sets the EOF flag (accepting the delivery), while a FOOTER_OK lookahead only
records that the message has a footer and that the body is sent, without
setting EOF on that invocation; EOF (with NO_END_STREAM exactly when a
footer is pending, so that the footer can follow as a trailing headers
frame) is set by a later invocation whose stream-data result is NO_MORE and
whose write capacity is nonzero. -/
theorem read_data_callback_amended :
    (∀ (length capacity : Nat) (s : RdState) (oracle : List (SDResult × Option Window)),
      read_data_callback .incomplete length capacity s oracle =
        { ret := .deferred, flags := ⟨false, false⟩
          state := { s with out_dlv_local_disposition := .none_ }, oracle := oracle }) ∧
    (∀ (length capacity p h : Nat) (s : RdState)
        (oracle : List (SDResult × Option Window)),
      s.next_stream_data = none →
      s.curr_stream_data = some ⟨p⟩ →
      s.curr_stream_data_result = .bodyOk →
      s.next_stream_data_result = .bodyOk →
      s.payload_handled = h →
      h < p →
      ((capacity = 0 →
          (read_data_callback .ok length capacity s oracle).ret = .deferred) ∧
       (0 < capacity →
          (read_data_callback .ok length capacity s oracle).ret =
            .bytes (min length (min (p - h) QD_ADAPTOR_MAX_BUFFER_SIZE))) ∧
       (0 < capacity → p - h ≤ QD_ADAPTOR_MAX_BUFFER_SIZE → p - h ≤ length →
          ∀ rest : List (SDResult × Option Window),
            oracle = (SDResult.noMore, none) :: rest →
            (read_data_callback .ok length capacity s oracle).flags.eof = true ∧
            (read_data_callback .ok length capacity s
                oracle).state.out_dlv_local_disposition = .accepted) ∧
       (0 < capacity → p - h ≤ QD_ADAPTOR_MAX_BUFFER_SIZE → p - h ≤ length →
          ∀ (w : Window) (rest : List (SDResult × Option Window)),
            oracle = (SDResult.footerOk, some w) :: rest →
            (read_data_callback .ok length capacity s oracle).flags.eof = false ∧
            (read_data_callback .ok length capacity s
                oracle).state.out_msg_has_footer = true ∧
            (read_data_callback .ok length capacity s
                oracle).state.out_msg_body_sent = true))) ∧
    (∀ (length capacity : Nat) (s : RdState)
        (oracle : List (SDResult × Option Window)) (w : Window),
      s.next_stream_data = none →
      s.curr_stream_data = some w →
      s.next_stream_data_result = .noMore →
      ((capacity = 0 →
          (read_data_callback .ok length capacity s oracle).ret = .deferred) ∧
       (0 < capacity →
          (read_data_callback .ok length capacity s oracle).ret = .bytes 0 ∧
          (read_data_callback .ok length capacity s oracle).flags.eof = true ∧
          (read_data_callback .ok length capacity s oracle).flags.noEndStream =
            s.out_msg_has_footer ∧
          (read_data_callback .ok length capacity s
              oracle).state.out_dlv_local_disposition = .accepted))) := by
  refine ⟨?_, ?_, ?_⟩
  · intro length capacity s oracle
    rfl
  · intro length capacity p h s oracle h1 h2 h3 h4 h5 hlt
    obtain ⟨c1, cr, n1, nr, ph, f1, f2, f3, f4, bo, dp⟩ := s
    simp only at h1 h2 h3 h4 h5
    subst h1 h2 h3 h4 h5
    have hp0 : ¬(p = 0) := by omega
    refine ⟨?_, ?_, ?_, ?_⟩
    · rintro rfl
      simp [read_data_callback]
    · intro hcap
      have hc0 : ¬(capacity = 0) := by omega
      simp only [read_data_callback, qd_message_next_stream_data, hc0, Option.map_some,
        reduceCtorEq, if_neg, if_false, false_and, and_false, ite_false, Option.getD_some, hp0,
        and_true, true_and, or_false, false_or, or_self, if_true, ite_true,
        Option.map_some', hlt.ne, Nat.sub_eq_zero_iff_le]
      split_ifs <;>
        simp_all [QD_ADAPTOR_MAX_BUFFER_SIZE, RdRet.bytes.injEq] <;> omega
    · intro hcap hrem hlen rest horacle
      subst horacle
      have hc0 : ¬(capacity = 0) := by omega
      have hnl : ¬(length < p - ph) := by omega
      simp only [read_data_callback, qd_message_next_stream_data, hc0, Option.map_some,
        reduceCtorEq, if_neg, if_false, false_and, and_false, ite_false, Option.getD_some, hp0,
        and_true, true_and, or_false, false_or, or_self, if_true, ite_true,
        Option.map_some', hlt.ne, Nat.sub_eq_zero_iff_le]
      have hrem2 : p - ph ≤ QD_ADAPTOR_MAX_BUFFER_SIZE := hrem
      split_ifs <;> simp_all
    · intro hcap hrem hlen w rest horacle
      subst horacle
      have hc0 : ¬(capacity = 0) := by omega
      have hnl : ¬(length < p - ph) := by omega
      simp only [read_data_callback, qd_message_next_stream_data, hc0, Option.map_some,
        reduceCtorEq, if_neg, if_false, false_and, and_false, ite_false, Option.getD_some, hp0,
        and_true, true_and, or_false, false_or, or_self, if_true, ite_true,
        Option.map_some', hlt.ne, Nat.sub_eq_zero_iff_le]
      have hrem2 : p - ph ≤ QD_ADAPTOR_MAX_BUFFER_SIZE := hrem
      split_ifs <;> simp_all
  · intro length capacity s oracle w h1 h2 h3
    obtain ⟨c1, cr, n1, nr, ph, f1, f2, f3, f4, bo, dp⟩ := s
    simp only at h1 h2 h3
    subst h1 h2 h3
    refine ⟨?_, ?_⟩
    · rintro rfl
      cases cr <;> simp [read_data_callback]
    · intro hcap
      have hc0 : ¬(capacity = 0) := by omega
      cases cr <;> simp [read_data_callback, hc0]

/-- Witness for read_data_callback_amended at concrete inputs: requested 20
bytes of a 10-byte window with capacity 5 and a FOOTER_OK lookahead leaves
EOF clear, and the same state with capacity 0 defers. -/
theorem read_data_callback_amended_witness :
    (read_data_callback .ok 20 5
        ⟨some ⟨10⟩, .bodyOk, none, .bodyOk, 0, false, false, false, false, 0, .none_⟩
        [(.footerOk, some ⟨3⟩)]).state.out_msg_has_footer = true ∧
    (read_data_callback .ok 20 0
        ⟨some ⟨10⟩, .bodyOk, none, .bodyOk, 0, false, false, false, false, 0, .none_⟩
        []).ret = .deferred := by
  constructor
  · exact ((read_data_callback_amended.2.1 20 5 10 0
      ⟨some ⟨10⟩, .bodyOk, none, .bodyOk, 0, false, false, false, false, 0, .none_⟩
      [(.footerOk, some ⟨3⟩)] rfl rfl rfl rfl rfl (by decide)).2.2.2
        (by decide) (by decide) (by decide) ⟨3⟩ [] rfl).2.1
  · exact (read_data_callback_amended.2.1 20 0 10 0
      ⟨some ⟨10⟩, .bodyOk, none, .bodyOk, 0, false, false, false, false, 0, .none_⟩
      [] rfl rfl rfl rfl rfl (by decide)).1 rfl

/-- Claim C9: on an egress raw-connection disconnect a 2000 ms reconnect
timer is scheduled unless the connector is being deleted (in which case the
pending activation is cancelled); `schedule_activation` arms the timer only
on the clear-to-set transition of the `activate_scheduled` flag, so a second
schedule while the flag is set does nothing and at most one activation timer
is outstanding; and `cancel_activation` cancels the timer before clearing
the flag. -/
theorem reconnect_timer_discipline (s : ActState) (msec : Nat) :
    (s.activate_scheduled = false →
      schedule_activation msec s =
        (true, ⟨true, some msec⟩, [ActPrim.setFlag, ActPrim.timerSchedule msec])) ∧
    (s.activate_scheduled = true →
      schedule_activation msec s = (false, s, [ActPrim.setFlag])) ∧
    ((schedule_activation msec s).1 = true →
      ∀ msec2 : Nat,
        schedule_activation msec2 (schedule_activation msec s).2.1 =
          (false, (schedule_activation msec s).2.1, [ActPrim.setFlag])) ∧
    (cancel_activation s = (⟨false, none⟩, [ActPrim.timerCancel, ActPrim.clearFlag])) ∧
    (on_disconnected_timer_logic false false s =
      if s.activate_scheduled then (s, [ActPrim.setFlag])
      else (⟨true, some 2000⟩, [ActPrim.setFlag, ActPrim.timerSchedule 2000])) ∧
    (on_disconnected_timer_logic false true s =
      (⟨false, none⟩, [ActPrim.timerCancel, ActPrim.clearFlag])) := by
  obtain ⟨flag, timer⟩ := s
  cases flag <;>
    simp [schedule_activation, cancel_activation, on_disconnected_timer_logic]

/-- Witness for reconnect_timer_discipline: from an idle egress connection a
disconnect arms the 2000 ms timer, and a second schedule while armed is a
no-op. -/
theorem reconnect_timer_discipline_witness :
    on_disconnected_timer_logic false false ⟨false, none⟩ =
      (if (false : Bool) then (⟨false, none⟩, [ActPrim.setFlag])
       else (⟨true, some 2000⟩, [ActPrim.setFlag, ActPrim.timerSchedule 2000])) ∧
    schedule_activation 500 (schedule_activation 2000 ⟨false, none⟩).2.1 =
      (false, (schedule_activation 2000 ⟨false, none⟩).2.1, [ActPrim.setFlag]) := by
  constructor
  · exact (reconnect_timer_discipline ⟨false, none⟩ 0).2.2.2.2.1
  · exact (reconnect_timer_discipline ⟨false, none⟩ 2000).2.2.1 rfl 500

/-- `uct_apply` keeps the filled-slot count at or below `UCT_SLOT_COUNT`. -/
theorem uct_apply_filled_le (op : UctOp) (s : UctState)
    (h : s.filled ≤ UCT_SLOT_COUNT) : (uct_apply op s).filled ≤ UCT_SLOT_COUNT := by
  cases op <;> simp only [uct_apply, uct_can_produce, uct_can_consume] <;>
    split_ifs <;> simp_all [UCT_SLOT_COUNT] <;> omega

/-- Claim C8: the cut-through ring has exactly `UCT_SLOT_COUNT = 8` slots
with resume threshold `UCT_RESUME_THRESHOLD = 4`; starting from the empty
ring every sequence of produce/consume steps keeps the filled-slot count
between 0 and 8; `resume_from_stalled` returns true exactly when the stream
is stalled with at most 4 filled slots, and at most once per
stall-to-unstall edge (the state it returns is no longer stalled); and a
stall is declared only when a producer observes `!can_produce`. -/
theorem cutthrough_ring_spec :
    UCT_SLOT_COUNT = 8 ∧ UCT_RESUME_THRESHOLD = 4 ∧
    (∀ ops : List UctOp,
      (ops.foldl (fun s op => uct_apply op s) uct_initial).filled ≤ UCT_SLOT_COUNT) ∧
    (∀ s : UctState,
      (uct_resume_from_stalled s).1 = true ↔
        (s.stalled = true ∧ s.filled ≤ UCT_RESUME_THRESHOLD)) ∧
    (∀ s : UctState,
      (uct_resume_from_stalled s).1 = true →
        (uct_resume_from_stalled (uct_resume_from_stalled s).2).1 = false) ∧
    (∀ s : UctState,
      (uct_apply .produce s).stalled = true →
        s.stalled = true ∨ uct_can_produce s = false) := by
  refine ⟨rfl, rfl, ?_, ?_, ?_, ?_⟩
  · intro ops
    have general : ∀ (l : List UctOp) (s : UctState), s.filled ≤ UCT_SLOT_COUNT →
        (l.foldl (fun s op => uct_apply op s) s).filled ≤ UCT_SLOT_COUNT := by
      intro l
      induction l with
      | nil => intro s h; simpa using h
      | cons hd tl ih =>
        intro s h
        exact ih (uct_apply hd s) (uct_apply_filled_le hd s h)
    exact general ops uct_initial (by simp [uct_initial, UCT_SLOT_COUNT])
  · intro s
    obtain ⟨n, st⟩ := s
    cases st <;> simp [uct_resume_from_stalled] <;> split_ifs <;> simp_all
  · intro s h
    obtain ⟨n, st⟩ := s
    cases st <;> simp_all [uct_resume_from_stalled] <;>
      split_ifs at h ⊢ <;> simp_all
  · intro s h
    obtain ⟨n, st⟩ := s
    cases st <;> simp_all [uct_apply] <;> split_ifs at h <;> simp_all

/-- Witness for cutthrough_ring_spec: a stalled ring holding 3 slots resumes
once and does not resume again. -/
theorem cutthrough_ring_spec_witness :
    (uct_resume_from_stalled ⟨3, true⟩).1 = true ∧
    (uct_resume_from_stalled (uct_resume_from_stalled ⟨3, true⟩).2).1 = false := by
  constructor
  · exact (cutthrough_ring_spec.2.2.2.1 ⟨3, true⟩).mpr (by decide)
  · exact cutthrough_ring_spec.2.2.2.2.1 ⟨3, true⟩
      ((cutthrough_ring_spec.2.2.2.1 ⟨3, true⟩).mpr (by decide))

/-- Claim C10: at most one incoming delivery is ever created per stream:
`route_delivery` returns false leaving the stream unchanged whenever
`in_dlv` is already present; a successful routing implies no prior delivery
and strictly positive link credit, sets `in_dlv`, and decrements
`in_link_credit` by exactly one; and on an ingress connection a delivery is
routed only after the reply-to address is recorded and the entire header has
arrived. -/
theorem route_delivery_single_delivery (ingress receive_complete : Bool)
    (sd : RouteStream) :
    (sd.in_dlv = true → route_delivery ingress receive_complete sd = (false, sd)) ∧
    ((route_delivery ingress receive_complete sd).1 = true →
      sd.in_dlv = false ∧ 0 < sd.in_link_credit ∧
      (route_delivery ingress receive_complete sd).2.in_dlv = true ∧
      (route_delivery ingress receive_complete sd).2.in_link_credit
          = sd.in_link_credit - 1) ∧
    ((route_delivery true receive_complete sd).1 = true →
      sd.reply_to = true ∧ sd.entire_header_arrived = true) := by
  obtain ⟨dlv, credit, rt, hdr, hp, fp, fa⟩ := sd
  refine ⟨?_, ?_, ?_⟩
  · rintro rfl
    simp [route_delivery]
  · intro hrouted
    cases dlv
    · cases credit <;> cases ingress <;> cases rt <;> cases hdr <;> cases hp <;>
        cases fp <;> cases fa <;> cases receive_complete <;>
          simp_all [route_delivery, compose_and_deliver]
    · simp [route_delivery] at hrouted
  · intro hrouted
    cases dlv <;> cases credit <;> cases rt <;> cases hdr <;> cases hp <;>
      cases fp <;> cases fa <;> cases receive_complete <;>
        simp_all [route_delivery, compose_and_deliver]

/-- Witness for route_delivery_single_delivery: a stream with an existing
delivery is not re-routed, and a fully-headed ingress stream with credit 2
routes once leaving credit 1. -/
theorem route_delivery_single_delivery_witness :
    route_delivery true false ⟨true, 5, true, true, true, false, false⟩ =
      (false, ⟨true, 5, true, true, true, false, false⟩) ∧
    ((route_delivery true false ⟨false, 2, true, true, true, false, false⟩).1 = true →
      (route_delivery true false ⟨false, 2, true, true, true, false, false⟩).2.in_link_credit
        = 1) := by
  constructor
  · exact (route_delivery_single_delivery true false
      ⟨true, 5, true, true, true, false, false⟩).1 rfl
  · intro h
    have h2 := (route_delivery_single_delivery true false
      ⟨false, 2, true, true, true, false, false⟩).2.1 h
    simpa using h2.2.2.2

end SkupperHttp2
